import Mathlib

/-!
Verification of the windowed candle-collection core of the forex data
collector (`infrastructure/data_collector.py`): the granularity calendar
`calculate_candles_between`, the bounded request `fetch_candles`, and the
windowed orchestrator `collect_large_candle_data`.

The Python code is shallowly embedded: timestamps become a proleptic-Gregorian
record with second precision (the only precision appearing in any format
string of the source), the HTTP transport becomes a function from request
parameters to a response value, and Python exceptions become an error type
threaded through `Except`.  Each network request the code would issue is
recorded in a trace so that claims about the number and shape of requests can
be stated.
-/

namespace ForexSim

/-- Timestamp with second precision, mirroring the `datetime.datetime`
values the collector manipulates (no format string of the source carries
sub-second fields). -/
structure DateTime where
  year : Nat
  month : Nat
  day : Nat
  hour : Nat
  minute : Nat
  second : Nat
deriving DecidableEq, Repr

/-- Gregorian leap-year rule, as used by `datetime`. -/
def isLeap (y : Nat) : Bool :=
  (y % 4 == 0 && y % 100 != 0) || y % 400 == 0

/-- Number of days of month `m` of year `y` (0 for an out-of-range month). -/
def daysInMonth (y m : Nat) : Nat :=
  match m with
  | 1 => 31
  | 2 => if isLeap y then 29 else 28
  | 3 => 31
  | 4 => 30
  | 5 => 31
  | 6 => 30
  | 7 => 31
  | 8 => 31
  | 9 => 30
  | 10 => 31
  | 11 => 30
  | 12 => 31
  | _ => 0

/-- Days of all years before year `y` in the proleptic Gregorian calendar
(year 1 is the first year, as in Python `date.toordinal`). -/
def daysBeforeYear (y : Nat) : Nat :=
  365 * (y - 1) + (y - 1) / 4 - (y - 1) / 100 + (y - 1) / 400

/-- Days of the months of year `y` strictly before month `m`. -/
def daysBeforeMonth (y m : Nat) : Nat :=
  (List.range (m - 1)).foldl (fun acc i => acc + daysInMonth y (i + 1)) 0

/-- Ordinal day number, as `date.toordinal` (2020-01-01 is day 737425). -/
def DateTime.toOrdinal (d : DateTime) : Nat :=
  daysBeforeYear d.year + daysBeforeMonth d.year d.month + d.day

/-- Seconds of the timestamp counted from day 0; differences of this value
are exactly `(dt2 - dt1).total_seconds()` for whole-second datetimes. -/
def DateTime.toSeconds (d : DateTime) : Nat :=
  ((d.toOrdinal * 24 + d.hour) * 60 + d.minute) * 60 + d.second

/-- Field ranges `datetime.strptime` accepts when building a datetime. -/
def DateTime.validFields (d : DateTime) : Prop :=
  1 ≤ d.year ∧ d.year ≤ 9999 ∧ 1 ≤ d.month ∧ d.month ≤ 12 ∧
  1 ≤ d.day ∧ d.day ≤ daysInMonth d.year d.month ∧
  d.hour ≤ 23 ∧ d.minute ≤ 59 ∧ d.second ≤ 59

instance (d : DateTime) : Decidable d.validFields := by
  unfold DateTime.validFields
  infer_instance

/-- One candle record.  The collector touches only the `time` field of a
candle (`candles[-1]["time"]`); everything else is opaque payload. -/
structure Candle where
  time : DateTime
deriving DecidableEq, Repr

/-- Transport response: HTTP success flag plus the decoded body, reduced to
whether a `candles` field is present and, if so, its list. -/
structure Resp where
  ok : Bool
  candles : Option (List Candle)
deriving DecidableEq, Repr

/-- The Python exceptions that can cross the functions under study.
`fuelExhausted` is the marker of the fuelled while-loop running out of fuel;
it is proved unreachable below. -/
inductive PyExc where
  | invalidFunctionArguments (function_name message : String)
  | requestError (raw : Resp)
  | nullCandles (raw : Resp)
  | valueError (message : String)
  | typeError
  | indexError
  | fuelExhausted
deriving DecidableEq, Repr

/-- A date string as `calculate_candles_between` sees it: either a
`YYYY-MM-DD` day or a full `YYYY-MM-DDTHH:MM:SSZ` instant. -/
inductive CBStr where
  | dateOnly (year month day : Nat)
  | fullISO (d : DateTime)
deriving DecidableEq, Repr

/-- Whether the string contains the `T` separator; the source uses this test
on `from_date` to choose the `strptime` format for both inputs. -/
def CBStr.hasT : CBStr → Bool
  | .dateOnly _ _ _ => false
  | .fullISO _ => true

/-- Model of `datetime.strptime` with the full format (`fullFormat = true`) or the
date-only format: a string of the other shape, or with out-of-range fields,
raises `ValueError`. -/
def strptime (fullFormat : Bool) : CBStr → Except PyExc DateTime
  | .dateOnly y m dd =>
    if fullFormat = false ∧ (DateTime.mk y m dd 0 0 0).validFields then
      .ok (DateTime.mk y m dd 0 0 0)
    else
      .error (.valueError "time data does not match format")
  | .fullISO d =>
    if fullFormat = true ∧ d.validFields then
      .ok d
    else
      .error (.valueError "time data does not match format")

/-- The `match granularity` table of `calculate_candles_between`: minutes of
one candle; unsupported granularities fall through to an error. -/
def delta_minutes : String → Option Nat
  | "M1" => some 1
  | "M5" => some 5
  | "M30" => some 30
  | "H1" => some 60
  | "H2" => some 120
  | "H4" => some 240
  | "D" => some 1440
  | "W" => some 10080
  | _ => none

/-- Embedding of `DataCollector.calculate_candles_between`: parse both dates with the
format inferred from `from_date`, require `from < to`, look up the
granularity, and return whole elapsed minutes floor-divided by the
granularity minutes.  All failures are `ValueError` exactly as in the
source. -/
def calculate_candles_between (from_date to_date : CBStr) (granularity : String) :
    Except PyExc Nat :=
  match strptime from_date.hasT from_date with
  | .error e => .error e
  | .ok dt1 =>
    match strptime from_date.hasT to_date with
    | .error e => .error e
    | .ok dt2 =>
      if dt2.toSeconds ≤ dt1.toSeconds then
        .error (.valueError "from_date must be earlier than to_date")
      else
        match delta_minutes granularity with
        | none => .error (.valueError "Unsupported granularity")
        | some dm =>
          let total_minutes := (dt2.toSeconds - dt1.toSeconds) / 60
          .ok (total_minutes / dm)

/-- Whole elapsed minutes between two instants, the quantity
`int((dt2 - dt1).total_seconds() / 60)` of the source. -/
def wholeMinutesBetween (dt1 dt2 : DateTime) : Nat :=
  (dt2.toSeconds - dt1.toSeconds) / 60

/-- C2: for from < to, both parseable in the format inferred from the from
value, and a supported granularity, `calculate_candles_between` returns the
floor of elapsed whole minutes divided by the granularity minutes (a
non-negative integer, here a `Nat`). -/
theorem calculate_candles_between_floor (from_date to_date : CBStr)
    (granularity : String) (dt1 dt2 : DateTime) (dm : Nat)
    (h1 : strptime from_date.hasT from_date = .ok dt1)
    (h2 : strptime from_date.hasT to_date = .ok dt2)
    (hlt : dt1.toSeconds < dt2.toSeconds)
    (hg : delta_minutes granularity = some dm) :
    calculate_candles_between from_date to_date granularity =
      .ok (wholeMinutesBetween dt1 dt2 / dm) := by
  unfold calculate_candles_between
  rw [h1, h2]
  dsimp only
  rw [if_neg (by omega), hg]
  rfl

/-- Witness for C2 at the spec example: one day at H1 granularity gives
24 candles, matching the floor-division formula. -/
theorem calculate_candles_between_floor_witness :
    calculate_candles_between (.dateOnly 2020 1 1) (.dateOnly 2020 1 2) "H1" =
      .ok (wholeMinutesBetween (DateTime.mk 2020 1 1 0 0 0) (DateTime.mk 2020 1 2 0 0 0) / 60) ∧
    calculate_candles_between (.dateOnly 2020 1 1) (.dateOnly 2020 1 2) "H1" = .ok 24 := by
  refine ⟨?_, by rfl⟩
  exact calculate_candles_between_floor _ _ "H1"
    (DateTime.mk 2020 1 1 0 0 0) (DateTime.mk 2020 1 2 0 0 0) 60
    (by rfl) (by rfl) (by decide) (by rfl)

/-- The `DataCollector.CANDLE_COUNT` per-request candle cap. -/
def CANDLE_COUNT : Nat := 4000

/-- The `DataCollector.granularity_list` value, the keys of the `INCREMENTS` table in
source order.  Note `M15` is here but absent from the calendar table, and
`H2`/`W` are in the calendar table but absent here. -/
def granularity_list : List String := ["M5", "M1", "M30", "M15", "H1", "H4", "D"]

/-- The recognized price codes. -/
def price_list : List String := ["MBA", "B", "A", "M"]

/-- A value passed for a date argument of `fetch_candles` or
`collect_large_candle_data`, as `dateutil.parser.parse` classifies it: a
string it can parse (carrying the parsed instant), a string it cannot parse,
or a non-string value. -/
inductive DInput where
  | parseable (d : DateTime)
  | unparseableStr (s : String)
  | nonString
deriving DecidableEq, Repr

/-- Model of `dateutil.parser.parse`: an unparseable string raises `ParserError`, a
subclass of `ValueError`; a non-string argument raises `TypeError`. -/
def parse_dateutil : DInput → Except PyExc DateTime
  | .parseable d => .ok d
  | .unparseableStr s => .error (.valueError s)
  | .nonString => .error .typeError

/-- The try-block of `fetch_candles` that parses `start` and, when present,
`end`; the first exception wins, exactly as the two statements run in
order. -/
def tryParseStartEnd (start : DInput) (end_ : Option DInput) :
    Except PyExc (DateTime × Option DateTime) :=
  match parse_dateutil start with
  | .error e => .error e
  | .ok s =>
    match end_ with
    | none => .ok (s, none)
    | some ei =>
      match parse_dateutil ei with
      | .error e => .error e
      | .ok e => .ok (s, some e)

/-- The try-block of `collect_large_candle_data` that parses `date_from`
then `date_to`. -/
def tryParseTwoDates (date_from date_to : DInput) : Except PyExc (DateTime × DateTime) :=
  match parse_dateutil date_from with
  | .error e => .error e
  | .ok d1 =>
    match parse_dateutil date_to with
    | .error e => .error e
    | .ok d2 => .ok (d1, d2)

/-- One issued network request: the instrument of the URL path plus the
query parameters the source puts in `params`.  `countP`/`toP` record which
of `count` / `to` the dict carries; `toP = some none` is `params` carrying
`to = None`. -/
structure ReqParams where
  pair : String
  granularity : String
  price : String
  fromP : DateTime
  countP : Option Int
  toP : Option (Option DateTime)
deriving DecidableEq, Repr

def msgPair : String := "Pair name must be in tradeable_instruments list"

def msgGranularity : String := "Granularity must be one of granularity_list"

def msgDates : String := "Start date must be in YYYY-MM-DD or yyyy-mm-ddThh:mm:ss format"

def msgPrice : String := "Price must be one of MBA, B, A, M"

def msgCount : String := "Count must be in range(1, 5000)"

/-- Lines 150-155 of the source: a non-success response raises
`RequestError` carrying the raw response; a success response without a
`candles` field raises `NullCandles`; otherwise the candle list is returned
unmodified. -/
def handleResponse (res : Resp) : Except PyExc (List Candle) :=
  if res.ok = false then
    .error (.requestError res)
  else
    match res.candles with
    | none => .error (.nullCandles res)
    | some cs => .ok cs

/-- Embedding of `DataCollector.fetch_candles`.  Validation runs in source order (pair,
granularity, dates, price, count); the date try-block converts only a
`TypeError` into `InvalidFunctionArguments`, any `ValueError` escaping as in
the source.  The second component is the list of network requests issued
(empty on validation failure, a singleton once `session.get` runs). -/
def fetch_candles (instruments : List String) (transport : ReqParams → Resp)
    (pair_name : String) (start : DInput) (end_ : Option DInput)
    (granularity : String) (count : Int) (price : String) (use_count : Bool) :
    Except PyExc (List Candle) × List ReqParams :=
  if pair_name ∈ instruments then
    if granularity ∈ granularity_list then
      match tryParseStartEnd start end_ with
      | .error .typeError =>
        (.error (.invalidFunctionArguments "fetch_candles" msgDates), [])
      | .error e => (.error e, [])
      | .ok (s, e) =>
        if price ∈ price_list then
          if 1 ≤ count ∧ count ≤ (CANDLE_COUNT : Int) then
            let params : ReqParams :=
              if use_count ∧ e = none then
                { pair := pair_name, granularity := granularity, price := price,
                  fromP := s, countP := some count, toP := none }
              else
                { pair := pair_name, granularity := granularity, price := price,
                  fromP := s, countP := none, toP := some e }
            (handleResponse (transport params), [params])
          else
            (.error (.invalidFunctionArguments "fetch_candles" msgCount), [])
        else
          (.error (.invalidFunctionArguments "fetch_candles" msgPrice), [])
    else
      (.error (.invalidFunctionArguments "fetch_candles" msgGranularity), [])
  else
    (.error (.invalidFunctionArguments "fetch_candles" msgPair), [])

/-- A `fetch_candles` call whose five validation checks pass issues exactly
one request, whose parameters are the count-anchored dict when `use_count`
is set and no end date was given, and the to-anchored dict otherwise; the
result is the response handling applied to the transport answer. -/
theorem fetch_valid_run (instruments : List String) (transport : ReqParams → Resp)
    (pair_name : String) (start : DInput) (end_ : Option DInput)
    (granularity : String) (count : Int) (price : String) (use_count : Bool)
    (s : DateTime) (e : Option DateTime)
    (hpair : pair_name ∈ instruments) (hg : granularity ∈ granularity_list)
    (hparse : tryParseStartEnd start end_ = .ok (s, e))
    (hprice : price ∈ price_list)
    (hc1 : 1 ≤ count) (hc2 : count ≤ (CANDLE_COUNT : Int)) :
    fetch_candles instruments transport pair_name start end_ granularity count price use_count =
      (handleResponse (transport
          (if use_count = true ∧ e = none then
            ReqParams.mk pair_name granularity price s (some count) none
          else
            ReqParams.mk pair_name granularity price s none (some e))),
        [if use_count = true ∧ e = none then
            ReqParams.mk pair_name granularity price s (some count) none
          else
            ReqParams.mk pair_name granularity price s none (some e)]) := by
  unfold fetch_candles
  rw [if_pos hpair, if_pos hg, hparse]
  dsimp only
  rw [if_pos hprice, if_pos ⟨hc1, hc2⟩]

/-- Case analysis of `handleResponse` following the source branches. -/
theorem handleResponse_spec (res : Resp) :
    (res.ok = false → handleResponse res = .error (.requestError res)) ∧
    (res.ok = true → res.candles = none → handleResponse res = .error (.nullCandles res)) ∧
    (∀ cs, res.ok = true → res.candles = some cs → handleResponse res = .ok cs) := by
  refine ⟨fun h => ?_, fun h h2 => ?_, fun cs h h2 => ?_⟩ <;>
    unfold handleResponse
  · rw [if_pos h]
  · rw [if_neg (by rw [h]; simp), h2]
  · rw [if_neg (by rw [h]; simp), h2]

/-- C8: once validation passes and one request `p` has been issued, a
non-success response raises `RequestFailed` carrying the raw response; a
success response with no candle field raises `EmptySeries`; otherwise the
candle list of the response is returned unmodified, a present-but-empty
list included. -/
theorem fetch_response_handling (instruments : List String) (transport : ReqParams → Resp)
    (pair_name : String) (start : DInput) (end_ : Option DInput)
    (granularity : String) (count : Int) (price : String) (use_count : Bool)
    (s : DateTime) (e : Option DateTime) (p : ReqParams)
    (hpair : pair_name ∈ instruments) (hg : granularity ∈ granularity_list)
    (hparse : tryParseStartEnd start end_ = .ok (s, e))
    (hprice : price ∈ price_list)
    (hc1 : 1 ≤ count) (hc2 : count ≤ (CANDLE_COUNT : Int))
    (hsnd : (fetch_candles instruments transport pair_name start end_ granularity
        count price use_count).snd = [p]) :
    ((transport p).ok = false →
      (fetch_candles instruments transport pair_name start end_ granularity
          count price use_count).fst = .error (.requestError (transport p))) ∧
    ((transport p).ok = true → (transport p).candles = none →
      (fetch_candles instruments transport pair_name start end_ granularity
          count price use_count).fst = .error (.nullCandles (transport p))) ∧
    (∀ cs, (transport p).ok = true → (transport p).candles = some cs →
      (fetch_candles instruments transport pair_name start end_ granularity
          count price use_count).fst = .ok cs) := by
  have key := fetch_valid_run instruments transport pair_name start end_ granularity
    count price use_count s e hpair hg hparse hprice hc1 hc2
  rw [key] at hsnd ⊢
  have hp : p = (if use_count = true ∧ e = none then
      ReqParams.mk pair_name granularity price s (some count) none
    else
      ReqParams.mk pair_name granularity price s none (some e)) := by
    have := List.head_eq_of_cons_eq hsnd.symm
    exact this
  rw [← hp]
  exact handleResponse_spec (transport p)

/-- Witness for C8: a known pair, valid arguments and a transport answering
with a success response carrying an empty candle list; the fetch returns
the empty list as a valid result. -/
theorem fetch_response_handling_witness :
    (fetch_candles ["EUR_USD"] (fun _ => Resp.mk true (some []))
        "EUR_USD" (.parseable (DateTime.mk 2020 1 1 0 0 0)) none "H1" 10 "MBA" false).fst =
      .ok [] := by
  refine (fetch_response_handling ["EUR_USD"] (fun _ => Resp.mk true (some []))
      "EUR_USD" (.parseable (DateTime.mk 2020 1 1 0 0 0)) none "H1" 10 "MBA" false
      (DateTime.mk 2020 1 1 0 0 0) none
      (ReqParams.mk "EUR_USD" "H1" "MBA" (DateTime.mk 2020 1 1 0 0 0) none (some none))
      (by decide) (by decide) (by rfl) (by decide) (by decide) (by decide)
      (by rfl)).2.2 [] (by rfl) (by rfl)

/-- C10: once validation passes, the issued request carries `count` and no
`to` parameter exactly when `use_count` is true and `end` is absent; in
every other case, including `use_count` true with a present end date, the
request carries the possibly-null normalized end as its `to` parameter and
no `count` parameter. -/
theorem fetch_request_anchoring (instruments : List String) (transport : ReqParams → Resp)
    (pair_name : String) (start : DInput) (end_ : Option DInput)
    (granularity : String) (count : Int) (price : String) (use_count : Bool)
    (s : DateTime) (e : Option DateTime)
    (hpair : pair_name ∈ instruments) (hg : granularity ∈ granularity_list)
    (hparse : tryParseStartEnd start end_ = .ok (s, e))
    (hprice : price ∈ price_list)
    (hc1 : 1 ≤ count) (hc2 : count ≤ (CANDLE_COUNT : Int)) :
    (use_count = true ∧ e = none →
      (fetch_candles instruments transport pair_name start end_ granularity
          count price use_count).snd =
        [ReqParams.mk pair_name granularity price s (some count) none]) ∧
    (¬(use_count = true ∧ e = none) →
      (fetch_candles instruments transport pair_name start end_ granularity
          count price use_count).snd =
        [ReqParams.mk pair_name granularity price s none (some e)]) := by
  have key := fetch_valid_run instruments transport pair_name start end_ granularity
    count price use_count s e hpair hg hparse hprice hc1 hc2
  rw [key]
  constructor
  · intro h
    rw [if_pos h]
  · intro h
    rw [if_neg h]

/-- Witness for C10: with `use_count = true` and no end the request carries
`count`; with `use_count = true` and an end date it carries `to` instead. -/
theorem fetch_request_anchoring_witness :
    (fetch_candles ["EUR_USD"] (fun _ => Resp.mk true (some []))
        "EUR_USD" (.parseable (DateTime.mk 2020 1 1 0 0 0)) none "H1" 10 "MBA" true).snd =
      [ReqParams.mk "EUR_USD" "H1" "MBA" (DateTime.mk 2020 1 1 0 0 0) (some 10) none] ∧
    (fetch_candles ["EUR_USD"] (fun _ => Resp.mk true (some []))
        "EUR_USD" (.parseable (DateTime.mk 2020 1 1 0 0 0))
        (some (.parseable (DateTime.mk 2020 1 2 0 0 0))) "H1" 10 "MBA" true).snd =
      [ReqParams.mk "EUR_USD" "H1" "MBA" (DateTime.mk 2020 1 1 0 0 0) none
        (some (some (DateTime.mk 2020 1 2 0 0 0)))] := by
  constructor
  · exact (fetch_request_anchoring ["EUR_USD"] (fun _ => Resp.mk true (some []))
      "EUR_USD" (.parseable (DateTime.mk 2020 1 1 0 0 0)) none "H1" 10 "MBA" true
      (DateTime.mk 2020 1 1 0 0 0) none
      (by decide) (by decide) (by rfl) (by decide) (by decide) (by decide)).1
      ⟨rfl, rfl⟩
  · exact (fetch_request_anchoring ["EUR_USD"] (fun _ => Resp.mk true (some []))
      "EUR_USD" (.parseable (DateTime.mk 2020 1 1 0 0 0))
      (some (.parseable (DateTime.mk 2020 1 2 0 0 0))) "H1" 10 "MBA" true
      (DateTime.mk 2020 1 1 0 0 0) (some (DateTime.mk 2020 1 2 0 0 0))
      (by decide) (by decide) (by rfl) (by decide) (by decide) (by decide)).2
      (by simp)

/-- Unknown pair: the first check fails, nothing else is looked at. -/
theorem fetch_pair_notmem (instruments : List String) (transport : ReqParams → Resp)
    (pair_name : String) (start : DInput) (end_ : Option DInput)
    (granularity : String) (count : Int) (price : String) (use_count : Bool)
    (h : pair_name ∉ instruments) :
    fetch_candles instruments transport pair_name start end_ granularity count price use_count =
      (.error (.invalidFunctionArguments "fetch_candles" msgPair), []) := by
  unfold fetch_candles
  rw [if_neg h]

/-- Unknown granularity with a known pair. -/
theorem fetch_gran_notmem (instruments : List String) (transport : ReqParams → Resp)
    (pair_name : String) (start : DInput) (end_ : Option DInput)
    (granularity : String) (count : Int) (price : String) (use_count : Bool)
    (h1 : pair_name ∈ instruments) (h2 : granularity ∉ granularity_list) :
    fetch_candles instruments transport pair_name start end_ granularity count price use_count =
      (.error (.invalidFunctionArguments "fetch_candles" msgGranularity), []) := by
  unfold fetch_candles
  rw [if_pos h1, if_neg h2]

/-- Invalid price once pair, granularity and dates pass. -/
theorem fetch_price_notmem (instruments : List String) (transport : ReqParams → Resp)
    (pair_name : String) (start : DInput) (end_ : Option DInput)
    (granularity : String) (count : Int) (price : String) (use_count : Bool)
    (s : DateTime) (e : Option DateTime)
    (h1 : pair_name ∈ instruments) (h2 : granularity ∈ granularity_list)
    (h3 : tryParseStartEnd start end_ = .ok (s, e)) (h4 : price ∉ price_list) :
    fetch_candles instruments transport pair_name start end_ granularity count price use_count =
      (.error (.invalidFunctionArguments "fetch_candles" msgPrice), []) := by
  unfold fetch_candles
  rw [if_pos h1, if_pos h2, h3]
  dsimp only
  rw [if_neg h4]

/-- Out-of-range count once everything before it passes. -/
theorem fetch_count_invalid (instruments : List String) (transport : ReqParams → Resp)
    (pair_name : String) (start : DInput) (end_ : Option DInput)
    (granularity : String) (count : Int) (price : String) (use_count : Bool)
    (s : DateTime) (e : Option DateTime)
    (h1 : pair_name ∈ instruments) (h2 : granularity ∈ granularity_list)
    (h3 : tryParseStartEnd start end_ = .ok (s, e)) (h4 : price ∈ price_list)
    (h5 : ¬(1 ≤ count ∧ count ≤ (CANDLE_COUNT : Int))) :
    fetch_candles instruments transport pair_name start end_ granularity count price use_count =
      (.error (.invalidFunctionArguments "fetch_candles" msgCount), []) := by
  unfold fetch_candles
  rw [if_pos h1, if_pos h2, h3]
  dsimp only
  rw [if_pos h4, if_neg h5]

/-- C9: `fetch_candles` validates pair, granularity, dates, price, count in
that fixed order with the first failure winning and no request issued on
any failure; an unknown pair yields `InvalidArgument` whatever the other
arguments are, and once the earlier checks pass, a count outside
`[1, CANDLE_COUNT]` (such as 0 or 4001) yields `InvalidArgument` while any
count inside it reaches the request. -/
theorem fetch_validation_order (instruments : List String) (transport : ReqParams → Resp) :
    (∀ pair_name start end_ granularity count price use_count,
      pair_name ∉ instruments →
      fetch_candles instruments transport pair_name start end_ granularity count price use_count =
        (.error (.invalidFunctionArguments "fetch_candles" msgPair), [])) ∧
    (∀ pair_name start end_ granularity count price use_count,
      pair_name ∈ instruments → granularity ∉ granularity_list →
      fetch_candles instruments transport pair_name start end_ granularity count price use_count =
        (.error (.invalidFunctionArguments "fetch_candles" msgGranularity), [])) ∧
    (∀ pair_name start end_ granularity count price use_count,
      pair_name ∈ instruments → granularity ∈ granularity_list →
      tryParseStartEnd start end_ = .error .typeError →
      fetch_candles instruments transport pair_name start end_ granularity count price use_count =
        (.error (.invalidFunctionArguments "fetch_candles" msgDates), [])) ∧
    (∀ pair_name start end_ granularity count price use_count s e,
      pair_name ∈ instruments → granularity ∈ granularity_list →
      tryParseStartEnd start end_ = .ok (s, e) → price ∉ price_list →
      fetch_candles instruments transport pair_name start end_ granularity count price use_count =
        (.error (.invalidFunctionArguments "fetch_candles" msgPrice), [])) ∧
    (∀ pair_name start end_ granularity count price use_count s e,
      pair_name ∈ instruments → granularity ∈ granularity_list →
      tryParseStartEnd start end_ = .ok (s, e) → price ∈ price_list →
      ¬(1 ≤ count ∧ count ≤ (CANDLE_COUNT : Int)) →
      fetch_candles instruments transport pair_name start end_ granularity count price use_count =
        (.error (.invalidFunctionArguments "fetch_candles" msgCount), [])) ∧
    (∀ pair_name start end_ granularity count price use_count s e,
      pair_name ∈ instruments → granularity ∈ granularity_list →
      tryParseStartEnd start end_ = .ok (s, e) → price ∈ price_list →
      1 ≤ count → count ≤ (CANDLE_COUNT : Int) →
      ∃ p, (fetch_candles instruments transport pair_name start end_ granularity
          count price use_count).snd = [p]) := by
  refine ⟨?_, ?_, ?_, ?_, ?_, ?_⟩
  · intro pair_name start end_ granularity count price use_count h
    exact fetch_pair_notmem instruments transport pair_name start end_ granularity
      count price use_count h
  · intro pair_name start end_ granularity count price use_count h1 h2
    exact fetch_gran_notmem instruments transport pair_name start end_ granularity
      count price use_count h1 h2
  · intro pair_name start end_ granularity count price use_count h1 h2 h3
    unfold fetch_candles
    rw [if_pos h1, if_pos h2, h3]
  · intro pair_name start end_ granularity count price use_count s e h1 h2 h3 h4
    exact fetch_price_notmem instruments transport pair_name start end_ granularity
      count price use_count s e h1 h2 h3 h4
  · intro pair_name start end_ granularity count price use_count s e h1 h2 h3 h4 h5
    exact fetch_count_invalid instruments transport pair_name start end_ granularity
      count price use_count s e h1 h2 h3 h4 h5
  · intro pair_name start end_ granularity count price use_count s e h1 h2 h3 h4 h5 h6
    rw [fetch_valid_run instruments transport pair_name start end_ granularity
      count price use_count s e h1 h2 h3 h4 h5 h6]
    exact ⟨_, rfl⟩

/-- Witness for C9: an unknown pair fails on the pair check whatever the
rest is; with earlier checks passing, counts 0 and 4001 fail the count
check while count 4000 reaches the request. -/
theorem fetch_validation_order_witness :
    fetch_candles ["EUR_USD"] (fun _ => Resp.mk true (some []))
        "GBP_USD" .nonString none "BAD" 0 "X" true =
      (.error (.invalidFunctionArguments "fetch_candles" msgPair), []) ∧
    fetch_candles ["EUR_USD"] (fun _ => Resp.mk true (some []))
        "EUR_USD" (.parseable (DateTime.mk 2020 1 1 0 0 0)) none "H1" 0 "MBA" true =
      (.error (.invalidFunctionArguments "fetch_candles" msgCount), []) ∧
    fetch_candles ["EUR_USD"] (fun _ => Resp.mk true (some []))
        "EUR_USD" (.parseable (DateTime.mk 2020 1 1 0 0 0)) none "H1" 4001 "MBA" true =
      (.error (.invalidFunctionArguments "fetch_candles" msgCount), []) ∧
    ∃ p, (fetch_candles ["EUR_USD"] (fun _ => Resp.mk true (some []))
        "EUR_USD" (.parseable (DateTime.mk 2020 1 1 0 0 0)) none "H1" 4000 "MBA" true).snd = [p] := by
  have h := fetch_validation_order ["EUR_USD"] (fun _ => Resp.mk true (some []))
  refine ⟨?_, ?_, ?_, ?_⟩
  · exact h.1 "GBP_USD" .nonString none "BAD" 0 "X" true (by decide)
  · exact h.2.2.2.2.1 "EUR_USD" (.parseable (DateTime.mk 2020 1 1 0 0 0)) none "H1" 0 "MBA" true
      (DateTime.mk 2020 1 1 0 0 0) none (by decide) (by decide) (by rfl) (by decide) (by decide)
  · exact h.2.2.2.2.1 "EUR_USD" (.parseable (DateTime.mk 2020 1 1 0 0 0)) none "H1" 4001 "MBA" true
      (DateTime.mk 2020 1 1 0 0 0) none (by decide) (by decide) (by rfl) (by decide) (by decide)
  · exact h.2.2.2.2.2 "EUR_USD" (.parseable (DateTime.mk 2020 1 1 0 0 0)) none "H1" 4000 "MBA" true
      (DateTime.mk 2020 1 1 0 0 0) none (by decide) (by decide) (by rfl) (by decide) (by decide)
      (by decide)

/-- C7 is refuted by the code: for a known pair and valid granularity, an
unparseable start string makes `dateutil` raise `ParserError`, a subclass
of `ValueError`, which the `except TypeError` clause does not catch, so it
escapes `fetch_candles` instead of becoming `InvalidArgument`; only a
non-string start (a `TypeError` from the parser) is converted to
`InvalidArgument`. -/
theorem fetch_unparseable_start_valueError :
    fetch_candles ["EUR_USD"] (fun _ => Resp.mk true (some []))
        "EUR_USD" (.unparseableStr "not-a-date") none "H1" 10 "MBA" false =
      (.error (.valueError "not-a-date"), []) ∧
    fetch_candles ["EUR_USD"] (fun _ => Resp.mk true (some []))
        "EUR_USD" .nonString none "H1" 10 "MBA" false =
      (.error (.invalidFunctionArguments "fetch_candles" msgDates), []) := by
  exact ⟨rfl, rfl⟩

/-- The `get_candles` subroutine of `collect_large_candle_data`: one
count-anchored fetch at the cursor date, with `InvalidFunctionArguments`,
`RequestError` and `NullCandles` caught and turned into `None` (here
`.ok none`); any other exception propagates. -/
def get_candles (instruments : List String) (transport : ReqParams → Resp)
    (pair granularity price : String) (p_count : Int) (start_date : DateTime) :
    Except PyExc (Option (List Candle)) × List ReqParams :=
  match fetch_candles instruments transport pair (.parseable start_date) none
      granularity p_count price true with
  | (.ok cs, tr) => (.ok (some cs), tr)
  | (.error (.invalidFunctionArguments _ _), tr) => (.ok none, tr)
  | (.error (.requestError _), tr) => (.ok none, tr)
  | (.error (.nullCandles _), tr) => (.ok none, tr)
  | (.error e, tr) => (.error e, tr)

/-- The `while count > 0` loop of `collect_large_candle_data`, with an
explicit fuel argument; `fuelExhausted` marks the fuel running out and is
proved unreachable for the fuel the collector supplies.  Each iteration
fetches `min count CANDLE_COUNT` candles at the cursor, extends the
accumulator (a `None` window making `extend` raise `TypeError`), decrements
`count`, moves the cursor to the last accumulated candle (an empty
accumulator making `candles[-1]` raise `IndexError`), and breaks once the
cursor has reached `to_date`. -/
def loopGo (instruments : List String) (transport : ReqParams → Resp)
    (pair granularity price : String) (to_date : DateTime) :
    Nat → Nat → DateTime → List Candle → List ReqParams →
    Except PyExc (Option (List Candle)) × List ReqParams
  | 0, _, _, _, trace => (.error .fuelExhausted, trace)
  | fuel + 1, count, from_date, acc, trace =>
    if count = 0 then
      (.ok (some acc), trace)
    else
      let current_count := min count CANDLE_COUNT
      match get_candles instruments transport pair granularity price
          (current_count : Int) from_date with
      | (.error e, tr) => (.error e, trace ++ tr)
      | (.ok none, tr) => (.error .typeError, trace ++ tr)
      | (.ok (some cs), tr) =>
        let acc2 := acc ++ cs
        match acc2.getLast? with
        | none => (.error .indexError, trace ++ tr)
        | some last =>
          if to_date.toSeconds ≤ last.time.toSeconds then
            (.ok (some acc2), trace ++ tr)
          else
            loopGo instruments transport pair granularity price to_date
              fuel (count - current_count) last.time acc2 (trace ++ tr)

/-- Embedding of `DataCollector.collect_large_candle_data`.  Validation mirrors the
fetch checks; both dates are parsed by `dateutil` with only `TypeError`
converted to `InvalidFunctionArguments`; the candle count between the
normalized dates is computed and incremented, a `ValueError` there being
caught and turned into a `None` result; a total at most `CANDLE_COUNT`
issues one count-anchored fetch, larger totals run the window loop.  The
result is paired with the trace of issued requests. -/
def collect_large_candle_data (instruments : List String) (transport : ReqParams → Resp)
    (pair granularity : String) (date_from date_to : DInput) (price : String) :
    Except PyExc (Option (List Candle)) × List ReqParams :=
  if pair ∈ instruments then
    if granularity ∈ granularity_list then
      match tryParseTwoDates date_from date_to with
      | .error .typeError =>
        (.error (.invalidFunctionArguments "collect_large_candle_data" msgDates), [])
      | .error e => (.error e, [])
      | .ok (from_date, to_date) =>
        if price ∈ price_list then
          match calculate_candles_between (.fullISO from_date) (.fullISO to_date)
              granularity with
          | .error (.valueError _) => (.ok none, [])
          | .error e => (.error e, [])
          | .ok n =>
            let count := n + 1
            if count ≤ CANDLE_COUNT then
              match get_candles instruments transport pair granularity price
                  (count : Int) from_date with
              | (.error e, tr) => (.error e, tr)
              | (.ok none, tr) => (.error .typeError, tr)
              | (.ok (some cs), tr) => (.ok (some cs), tr)
            else
              loopGo instruments transport pair granularity price to_date
                (count + 1) count from_date [] []
        else
          (.error (.invalidFunctionArguments "collect_large_candle_data" msgPrice), [])
    else
      (.error (.invalidFunctionArguments "collect_large_candle_data" msgGranularity), [])
  else
    (.error (.invalidFunctionArguments "collect_large_candle_data" msgPair), [])

/-- The request `get_candles` issues for a window of `p_count` candles from
`start_date`: count-anchored, no `to` parameter. -/
def mkReq (pair granularity price : String) (start_date : DateTime) (p_count : Int) :
    ReqParams :=
  ReqParams.mk pair granularity price start_date (some p_count) none

/-- What one window contributes after `get_candles` catches its three
exception kinds: the candle list on success, `None` on a failed request or
a missing candle field. -/
def windowResult (res : Resp) : Option (List Candle) :=
  if res.ok = true then res.candles else none

/-- With valid window arguments, `get_candles` issues exactly the
count-anchored request and returns the caught-or-successful window
result. -/
theorem get_candles_eq (instruments : List String) (transport : ReqParams → Resp)
    (pair granularity price : String) (p_count : Int) (start_date : DateTime)
    (hpair : pair ∈ instruments) (hg : granularity ∈ granularity_list)
    (hprice : price ∈ price_list)
    (hc1 : 1 ≤ p_count) (hc2 : p_count ≤ (CANDLE_COUNT : Int)) :
    get_candles instruments transport pair granularity price p_count start_date =
      (.ok (windowResult (transport (mkReq pair granularity price start_date p_count))),
        [mkReq pair granularity price start_date p_count]) := by
  unfold get_candles
  rw [fetch_valid_run instruments transport pair (.parseable start_date) none granularity
    p_count price true start_date none hpair hg rfl hprice hc1 hc2]
  rw [if_pos ⟨rfl, rfl⟩]
  unfold mkReq
  cases hok : (transport (ReqParams.mk pair granularity price start_date (some p_count) none)).ok with
  | false => simp [handleResponse, windowResult, hok]
  | true =>
    cases hc : (transport (ReqParams.mk pair granularity price start_date (some p_count) none)).candles with
    | none => simp [handleResponse, windowResult, hok, hc]
    | some cs => simp [handleResponse, windowResult, hok, hc]

/-- Whatever the arguments, a `get_candles` call either yields `None` (a
caught failure) or yields the candle list of a successful response to the
single request it issued, anchored at the cursor date. -/
theorem get_candles_cases (instruments : List String) (transport : ReqParams → Resp)
    (pair granularity price : String) (p_count : Int) (start_date : DateTime)
    (r : Except PyExc (Option (List Candle))) (tr : List ReqParams)
    (h : get_candles instruments transport pair granularity price p_count start_date = (r, tr)) :
    r = .ok none ∨
    ∃ cs p, r = .ok (some cs) ∧ tr = [p] ∧ p.fromP = start_date ∧
      (transport p).ok = true ∧ (transport p).candles = some cs := by
  by_cases hpair : pair ∈ instruments
  · by_cases hg : granularity ∈ granularity_list
    · by_cases hprice : price ∈ price_list
      · by_cases hcnt : 1 ≤ p_count ∧ p_count ≤ (CANDLE_COUNT : Int)
        · rw [get_candles_eq instruments transport pair granularity price p_count
            start_date hpair hg hprice hcnt.1 hcnt.2] at h
          set p := mkReq pair granularity price start_date p_count with hp
          cases hok : (transport p).ok with
          | false =>
            left
            rw [Prod.mk.injEq] at h
            rw [← h.1]
            unfold windowResult
            rw [hok]
            simp
          | true =>
            cases hcan : (transport p).candles with
            | none =>
              left
              rw [Prod.mk.injEq] at h
              rw [← h.1]
              unfold windowResult
              rw [hok, hcan]
              simp
            | some cs =>
              right
              refine ⟨cs, p, ?_, ?_, rfl, hok, hcan⟩
              · rw [Prod.mk.injEq] at h
                rw [← h.1]
                unfold windowResult
                rw [hok, hcan]
                simp
              · rw [Prod.mk.injEq] at h
                exact h.2.symm
        · left
          unfold get_candles at h
          rw [fetch_count_invalid instruments transport pair (.parseable start_date) none
            granularity p_count price true start_date none hpair hg rfl hprice hcnt] at h
          rw [Prod.mk.injEq] at h
          exact h.1.symm
      · left
        unfold get_candles at h
        rw [fetch_price_notmem instruments transport pair (.parseable start_date) none
          granularity p_count price true start_date none hpair hg rfl hprice] at h
        rw [Prod.mk.injEq] at h
        exact h.1.symm
    · left
      unfold get_candles at h
      rw [fetch_gran_notmem instruments transport pair (.parseable start_date) none
        granularity p_count price true hpair hg] at h
      rw [Prod.mk.injEq] at h
      exact h.1.symm
  · left
    unfold get_candles at h
    rw [fetch_pair_notmem instruments transport pair (.parseable start_date) none
      granularity p_count price true hpair] at h
    rw [Prod.mk.injEq] at h
    exact h.1.symm

/-- A window size `min count CANDLE_COUNT` is positive once the loop guard
`count > 0` holds. -/
theorem min_candle_pos (count : Nat) (h : count ≠ 0) : 1 ≤ min count CANDLE_COUNT :=
  le_min (by omega) (by norm_num [CANDLE_COUNT])

/-- A window size never exceeds the cap. -/
theorem min_candle_le (count : Nat) : min count CANDLE_COUNT ≤ CANDLE_COUNT :=
  min_le_right _ _

/-- The loop only appends to the request trace it is given. -/
theorem loopGo_trace_prefix (instruments : List String) (transport : ReqParams → Resp)
    (pair granularity price : String) (to_date : DateTime) :
    ∀ fuel count from_date acc trace,
      ∃ t, (loopGo instruments transport pair granularity price to_date
          fuel count from_date acc trace).snd = trace ++ t := by
  intro fuel
  induction fuel with
  | zero =>
    intro count from_date acc trace
    exact ⟨[], by simp [loopGo]⟩
  | succ f ih =>
    intro count from_date acc trace
    unfold loopGo
    by_cases h0 : count = 0
    · rw [if_pos h0]
      exact ⟨[], by simp⟩
    · rw [if_neg h0]
      dsimp only
      rcases hgc : get_candles instruments transport pair granularity price
          ((min count CANDLE_COUNT : Nat) : Int) from_date with ⟨r, tr⟩
      rcases r with e | co
      · exact ⟨tr, rfl⟩
      · rcases co with _ | cs
        · exact ⟨tr, rfl⟩
        · dsimp only
          rcases hl : (acc ++ cs).getLast? with _ | last
          · exact ⟨tr, rfl⟩
          · dsimp only
            by_cases hb : to_date.toSeconds ≤ last.time.toSeconds
            · rw [if_pos hb]
              exact ⟨tr, rfl⟩
            · rw [if_neg hb]
              obtain ⟨t, ht⟩ := ih (count - min count CANDLE_COUNT) last.time
                (acc ++ cs) (trace ++ tr)
              exact ⟨tr ++ t, by rw [ht, List.append_assoc]⟩

/-- Fuel one past the remaining count is always enough: the loop body
decrements `count` by `min count CANDLE_COUNT ≥ 1` on every completed
iteration and every other branch stops, so the fuel marker is never
reached. -/
theorem loopGo_fuel_enough (instruments : List String) (transport : ReqParams → Resp)
    (pair granularity price : String) (to_date : DateTime) :
    ∀ fuel count from_date acc trace, count < fuel →
      (loopGo instruments transport pair granularity price to_date
          fuel count from_date acc trace).fst ≠ .error .fuelExhausted := by
  intro fuel
  induction fuel with
  | zero =>
    intro count from_date acc trace hlt
    exact absurd hlt (by omega)
  | succ f ih =>
    intro count from_date acc trace hlt
    unfold loopGo
    by_cases h0 : count = 0
    · rw [if_pos h0]
      simp
    · rw [if_neg h0]
      dsimp only
      rcases hgc : get_candles instruments transport pair granularity price
          ((min count CANDLE_COUNT : Nat) : Int) from_date with ⟨r, tr⟩
      rcases get_candles_cases instruments transport pair granularity price
          ((min count CANDLE_COUNT : Nat) : Int) from_date r tr hgc with hr | ⟨cs, p, hr, _, _, _, _⟩
      · rw [hr]
        simp
      · rw [hr]
        dsimp only
        rcases hl : (acc ++ cs).getLast? with _ | last
        · simp
        · dsimp only
          by_cases hb : to_date.toSeconds ≤ last.time.toSeconds
          · rw [if_pos hb]
            simp
          · rw [if_neg hb]
            exact ih (count - min count CANDLE_COUNT) last.time (acc ++ cs)
              (trace ++ tr)
              (lt_of_lt_of_le (Nat.sub_lt (by omega) (min_candle_pos count h0))
                (by omega))

/-- A loop entered with a positive count and at least one unit of fuel
issues, first, the count-anchored window request at the cursor (provided
the window arguments pass fetch validation). -/
theorem loopGo_issues_request (instruments : List String) (transport : ReqParams → Resp)
    (pair granularity price : String) (to_date : DateTime)
    (hpair : pair ∈ instruments) (hg : granularity ∈ granularity_list)
    (hprice : price ∈ price_list) :
    ∀ fuel count from_date acc trace, count ≠ 0 →
      ∃ t, (loopGo instruments transport pair granularity price to_date
          (fuel + 1) count from_date acc trace).snd =
        trace ++ mkReq pair granularity price from_date ((min count CANDLE_COUNT : Nat) : Int) :: t := by
  intro fuel count from_date acc trace h0
  unfold loopGo
  rw [if_neg h0]
  dsimp only
  rw [get_candles_eq instruments transport pair granularity price
    ((min count CANDLE_COUNT : Nat) : Int) from_date hpair hg hprice
    (by exact_mod_cast min_candle_pos count h0)
    (by exact_mod_cast min_candle_le count)]
  rcases hw : windowResult (transport (mkReq pair granularity price from_date
      ((min count CANDLE_COUNT : Nat) : Int))) with _ | cs
  · exact ⟨[], rfl⟩
  · dsimp only
    rcases hl : (acc ++ cs).getLast? with _ | last
    · exact ⟨[], rfl⟩
    · dsimp only
      by_cases hb : to_date.toSeconds ≤ last.time.toSeconds
      · rw [if_pos hb]
        exact ⟨[], rfl⟩
      · rw [if_neg hb]
        obtain ⟨t, ht⟩ := loopGo_trace_prefix instruments transport pair granularity price
          to_date fuel (count - min count CANDLE_COUNT) last.time (acc ++ cs)
          (trace ++ [mkReq pair granularity price from_date ((min count CANDLE_COUNT : Nat) : Int)])
        exact ⟨t, by rw [ht, List.append_assoc]; rfl⟩

/-- Unfolding the loop at zero fuel. -/
theorem loopGo_zero_eq (instruments : List String) (transport : ReqParams → Resp)
    (pair granularity price : String) (to_date : DateTime)
    (count : Nat) (from_date : DateTime) (acc : List Candle) (trace : List ReqParams) :
    loopGo instruments transport pair granularity price to_date 0 count from_date acc trace =
      (.error .fuelExhausted, trace) := rfl

/-- Unfolding one loop iteration at positive fuel. -/
theorem loopGo_succ_eq (instruments : List String) (transport : ReqParams → Resp)
    (pair granularity price : String) (to_date : DateTime)
    (fuel count : Nat) (from_date : DateTime) (acc : List Candle) (trace : List ReqParams) :
    loopGo instruments transport pair granularity price to_date (fuel + 1) count from_date acc trace =
      (if count = 0 then
        (.ok (some acc), trace)
      else
        match get_candles instruments transport pair granularity price
            ((min count CANDLE_COUNT : Nat) : Int) from_date with
        | (.error e, tr) => (.error e, trace ++ tr)
        | (.ok none, tr) => (.error .typeError, trace ++ tr)
        | (.ok (some cs), tr) =>
          match (acc ++ cs).getLast? with
          | none => (.error .indexError, trace ++ tr)
          | some last =>
            if to_date.toSeconds ≤ last.time.toSeconds then
              (.ok (some (acc ++ cs)), trace ++ tr)
            else
              loopGo instruments transport pair granularity price to_date
                fuel (count - min count CANDLE_COUNT) last.time (acc ++ cs) (trace ++ tr)) := rfl

/-- Every failure of the format-inferring `strptime` model is a
`ValueError`, as in Python. -/
theorem strptime_error_is_valueError (b : Bool) (s : CBStr) (e : PyExc)
    (h : strptime b s = .error e) : ∃ msg, e = .valueError msg := by
  rcases s with ⟨y, m, dd⟩ | d
  · unfold strptime at h
    dsimp only at h
    by_cases hc : b = false ∧ (DateTime.mk y m dd 0 0 0).validFields
    · rw [if_pos hc] at h
      exact absurd h (by simp)
    · rw [if_neg hc] at h
      injection h with h2
      exact ⟨_, h2.symm⟩
  · unfold strptime at h
    dsimp only at h
    by_cases hc : b = true ∧ d.validFields
    · rw [if_pos hc] at h
      exact absurd h (by simp)
    · rw [if_neg hc] at h
      injection h with h2
      exact ⟨_, h2.symm⟩

/-- Every failure of `calculate_candles_between` is a `ValueError`: a
`strptime` failure, the `from >= to` range error, or the unsupported
granularity error. -/
theorem cb_error_is_valueError (f t : CBStr) (g : String) (e : PyExc)
    (h : calculate_candles_between f t g = .error e) : ∃ msg, e = .valueError msg := by
  unfold calculate_candles_between at h
  cases hf : strptime f.hasT f with
  | error e1 =>
    rw [hf] at h
    dsimp only at h
    injection h with h2
    exact h2 ▸ strptime_error_is_valueError _ _ _ hf
  | ok dt1 =>
    rw [hf] at h
    dsimp only at h
    cases ht : strptime f.hasT t with
    | error e2 =>
      rw [ht] at h
      dsimp only at h
      injection h with h2
      exact h2 ▸ strptime_error_is_valueError _ _ _ ht
    | ok dt2 =>
      rw [ht] at h
      dsimp only at h
      by_cases hle : dt2.toSeconds ≤ dt1.toSeconds
      · rw [if_pos hle] at h
        injection h with h2
        exact ⟨_, h2.symm⟩
      · rw [if_neg hle] at h
        cases hdm : delta_minutes g with
        | none =>
          rw [hdm] at h
          dsimp only at h
          injection h with h2
          exact ⟨_, h2.symm⟩
        | some dm =>
          rw [hdm] at h
          dsimp only at h
          exact absurd h (by simp)

/-- Once the four input validations of `collect_large_candle_data` pass on
parseable dates, the collector is the candle-count computation followed by
the single-fetch or windowed-loop branch. -/
theorem collect_valid_eq (instruments : List String) (transport : ReqParams → Resp)
    (pair granularity price : String) (from_date to_date : DateTime)
    (hpair : pair ∈ instruments) (hg : granularity ∈ granularity_list)
    (hprice : price ∈ price_list) :
    collect_large_candle_data instruments transport pair granularity
        (.parseable from_date) (.parseable to_date) price =
      (match calculate_candles_between (.fullISO from_date) (.fullISO to_date) granularity with
      | .error (.valueError _) => (.ok none, [])
      | .error e => (.error e, [])
      | .ok n =>
        if n + 1 ≤ CANDLE_COUNT then
          match get_candles instruments transport pair granularity price
              ((n + 1 : Nat) : Int) from_date with
          | (.error e, tr) => (.error e, tr)
          | (.ok none, tr) => (.error .typeError, tr)
          | (.ok (some cs), tr) => (.ok (some cs), tr)
        else
          loopGo instruments transport pair granularity price to_date
            (n + 1 + 1) (n + 1) from_date [] []) := by
  unfold collect_large_candle_data
  rw [if_pos hpair, if_pos hg]
  dsimp only [tryParseTwoDates, parse_dateutil]
  rw [if_pos hprice]

/-- A failure of the collector date try-block is a `TypeError` or a
`ValueError`, never anything else. -/
theorem tryParseTwoDates_error (date_from date_to : DInput) (e : PyExc)
    (h : tryParseTwoDates date_from date_to = .error e) :
    e = .typeError ∨ ∃ msg, e = .valueError msg := by
  rcases date_from with d | s | _ <;> rcases date_to with d2 | s2 | _ <;>
      dsimp only [tryParseTwoDates, parse_dateutil] at h <;>
    first
      | (injection h with h2; subst h2; simp)
      | injection h

/-- The proposition the claim asserts: some input and transport behaviour
make the windowed loop of the collector run forever (no fuel ever
suffices). -/
def LoopDiverges : Prop :=
  ∃ (instruments : List String) (transport : ReqParams → Resp)
    (pair granularity price : String) (to_date : DateTime)
    (count : Nat) (from_date : DateTime),
    ∀ fuel, (loopGo instruments transport pair granularity price to_date
        fuel count from_date [] []).fst = .error .fuelExhausted

/-- C4 counterexample: no input and no transport behaviour make the
windowed loop diverge, because `count` is decremented by
`min count CANDLE_COUNT ≥ 1` on every completed iteration and every failed
window stops the loop with an exception. -/
theorem loop_divergence_impossible : ¬ LoopDiverges := by
  rintro ⟨instruments, transport, pair, granularity, price, to_date, count, from_date, h⟩
  exact loopGo_fuel_enough instruments transport pair granularity price to_date
    (count + 1) count from_date [] [] (Nat.lt_succ_self count) (h (count + 1))

/-- C4 as amended: the windowed loop, and the whole collector, terminate on
every input and every transport behaviour; the fuel marker is never
reached. -/
theorem collect_loop_always_terminates :
    (∀ (instruments : List String) (transport : ReqParams → Resp)
        (pair granularity price : String) (to_date : DateTime)
        (count : Nat) (from_date : DateTime) (acc : List Candle) (trace : List ReqParams),
      (loopGo instruments transport pair granularity price to_date
          (count + 1) count from_date acc trace).fst ≠ .error .fuelExhausted) ∧
    (∀ (instruments : List String) (transport : ReqParams → Resp)
        (pair granularity : String) (date_from date_to : DInput) (price : String),
      (collect_large_candle_data instruments transport pair granularity
          date_from date_to price).fst ≠ .error .fuelExhausted) := by
  constructor
  · intro instruments transport pair granularity price to_date count from_date acc trace
    exact loopGo_fuel_enough instruments transport pair granularity price to_date
      (count + 1) count from_date acc trace (Nat.lt_succ_self count)
  · intro instruments transport pair granularity date_from date_to price
    unfold collect_large_candle_data
    by_cases hpair : pair ∈ instruments
    swap
    · rw [if_neg hpair]
      simp
    rw [if_pos hpair]
    by_cases hg : granularity ∈ granularity_list
    swap
    · rw [if_neg hg]
      simp
    rw [if_pos hg]
    rcases hpd : tryParseTwoDates date_from date_to with e | ⟨from_date, to_date⟩
    · rcases tryParseTwoDates_error date_from date_to e hpd with rfl | ⟨msg, rfl⟩ <;> simp
    · dsimp only
      by_cases hprice : price ∈ price_list
      swap
      · rw [if_neg hprice]
        simp
      rw [if_pos hprice]
      rcases hcb : calculate_candles_between (.fullISO from_date) (.fullISO to_date)
          granularity with e | n
      · obtain ⟨msg, rfl⟩ := cb_error_is_valueError _ _ _ _ hcb
        simp
      · dsimp only
        by_cases hle : n + 1 ≤ CANDLE_COUNT
        · rw [if_pos hle]
          rcases hgc : get_candles instruments transport pair granularity price
              ((n + 1 : Nat) : Int) from_date with ⟨r, tr⟩
          rcases get_candles_cases instruments transport pair granularity price
              ((n + 1 : Nat) : Int) from_date r tr hgc with hr | ⟨cs, p, hr, _, _, _, _⟩ <;>
            subst hr <;> simp
        · rw [if_neg hle]
          exact loopGo_fuel_enough instruments transport pair granularity price to_date
            (n + 1 + 1) (n + 1) from_date [] [] (by omega)

/-- Witness for C4 amended: loop and collector at a concrete input with a
transport that fails every request. -/
theorem collect_loop_always_terminates_witness :
    (loopGo ["EUR_USD"] (fun _ => Resp.mk false none) "EUR_USD" "H1" "MBA"
        (DateTime.mk 2020 1 2 0 0 0) 1 0 (DateTime.mk 2020 1 1 0 0 0) [] []).fst ≠
      .error .fuelExhausted ∧
    (collect_large_candle_data ["EUR_USD"] (fun _ => Resp.mk false none) "EUR_USD" "H1"
        (.parseable (DateTime.mk 2020 1 1 0 0 0)) (.parseable (DateTime.mk 2020 1 2 0 0 0))
        "MBA").fst ≠ .error .fuelExhausted := by
  constructor
  · exact collect_loop_always_terminates.1 ["EUR_USD"] (fun _ => Resp.mk false none)
      "EUR_USD" "H1" "MBA" (DateTime.mk 2020 1 2 0 0 0) 0 (DateTime.mk 2020 1 1 0 0 0) [] []
  · exact collect_loop_always_terminates.2 ["EUR_USD"] (fun _ => Resp.mk false none)
      "EUR_USD" "H1" (.parseable (DateTime.mk 2020 1 1 0 0 0))
      (.parseable (DateTime.mk 2020 1 2 0 0 0)) "MBA"

/-- C6: for inputs passing the collector validations, a failing candle
count computation (for example `from >= to`, or the granularity `M15` that
fetch accepts but the calendar does not) makes `collect_large_candle_data`
return `None` with no fetch issued and no exception propagated; otherwise
the total requested is exactly `calculate_candles_between + 1`, visible as
the count of the first issued request (capped per window). -/
theorem collect_aborts_on_calc_failure (instruments : List String)
    (transport : ReqParams → Resp) (pair granularity price : String)
    (from_date to_date : DateTime)
    (hpair : pair ∈ instruments) (hg : granularity ∈ granularity_list)
    (hprice : price ∈ price_list) :
    ((∀ n, calculate_candles_between (.fullISO from_date) (.fullISO to_date) granularity ≠
        .ok n) →
      collect_large_candle_data instruments transport pair granularity
        (.parseable from_date) (.parseable to_date) price = (.ok none, [])) ∧
    (∀ n, calculate_candles_between (.fullISO from_date) (.fullISO to_date) granularity =
        .ok n →
      ∃ t, (collect_large_candle_data instruments transport pair granularity
          (.parseable from_date) (.parseable to_date) price).snd =
        mkReq pair granularity price from_date
          ((min (n + 1) CANDLE_COUNT : Nat) : Int) :: t) := by
  rw [collect_valid_eq instruments transport pair granularity price from_date to_date
    hpair hg hprice]
  constructor
  · intro hfail
    cases hcb : calculate_candles_between (.fullISO from_date) (.fullISO to_date)
        granularity with
    | error e =>
      obtain ⟨msg, rfl⟩ := cb_error_is_valueError _ _ _ _ hcb
      rfl
    | ok n => exact absurd hcb (hfail n)
  · intro n hcb
    rw [hcb]
    dsimp only
    by_cases hle : n + 1 ≤ CANDLE_COUNT
    · rw [if_pos hle]
      rw [get_candles_eq instruments transport pair granularity price
        ((n + 1 : Nat) : Int) from_date hpair hg hprice
        (by exact_mod_cast Nat.le_add_left 1 n) (by exact_mod_cast hle)]
      rcases hw : windowResult (transport (mkReq pair granularity price from_date
          ((n + 1 : Nat) : Int))) with _ | cs <;>
        dsimp only <;>
        · refine ⟨[], ?_⟩
          rw [Nat.min_eq_left hle]
    · rw [if_neg hle]
      obtain ⟨t, ht⟩ := loopGo_issues_request instruments transport pair granularity price
        to_date hpair hg hprice (n + 1) (n + 1) from_date [] [] (by omega)
      refine ⟨t, ?_⟩
      rw [ht]
      simp

/-- Witness for C6: granularity `M15` passes collector validation but the
calendar rejects it, so the run aborts to `None` with no fetch; with `H1`,
one day gives a count of 24 + 1 = 25, the count of the single issued
request. -/
theorem collect_aborts_on_calc_failure_witness :
    collect_large_candle_data ["EUR_USD"] (fun _ => Resp.mk false none) "EUR_USD" "M15"
        (.parseable (DateTime.mk 2020 1 1 0 0 0)) (.parseable (DateTime.mk 2020 1 2 0 0 0))
        "MBA" = (.ok none, []) ∧
    ∃ t, (collect_large_candle_data ["EUR_USD"] (fun _ => Resp.mk false none) "EUR_USD" "H1"
        (.parseable (DateTime.mk 2020 1 1 0 0 0)) (.parseable (DateTime.mk 2020 1 2 0 0 0))
        "MBA").snd =
      mkReq "EUR_USD" "H1" "MBA" (DateTime.mk 2020 1 1 0 0 0) ((25 : Nat) : Int) :: t := by
  constructor
  · exact (collect_aborts_on_calc_failure ["EUR_USD"] (fun _ => Resp.mk false none)
      "EUR_USD" "M15" "MBA" (DateTime.mk 2020 1 1 0 0 0) (DateTime.mk 2020 1 2 0 0 0)
      (by decide) (by decide) (by decide)).1 (fun n h => nomatch h)
  · exact (collect_aborts_on_calc_failure ["EUR_USD"] (fun _ => Resp.mk false none)
      "EUR_USD" "H1" "MBA" (DateTime.mk 2020 1 1 0 0 0) (DateTime.mk 2020 1 2 0 0 0)
      (by decide) (by decide) (by decide)).2 24 (by rfl)

/-- C1: with valid inputs and a computed candle count `n`, the total
requested is `n + 1`; when that total is at most `CANDLE_COUNT` the
collector issues exactly one count-anchored fetch at `from_date` for the
whole total (whatever the transport then answers); when the total is
`CANDLE_COUNT + 1` and the first window succeeds with candles ending
before `to_date`, at least two fetches are issued. -/
theorem collect_fetch_counts (instruments : List String) (transport : ReqParams → Resp)
    (pair granularity price : String) (from_date to_date : DateTime) (n : Nat)
    (hpair : pair ∈ instruments) (hg : granularity ∈ granularity_list)
    (hprice : price ∈ price_list)
    (hcb : calculate_candles_between (.fullISO from_date) (.fullISO to_date) granularity =
      .ok n) :
    (n + 1 ≤ CANDLE_COUNT →
      (collect_large_candle_data instruments transport pair granularity
          (.parseable from_date) (.parseable to_date) price).snd =
        [mkReq pair granularity price from_date ((n + 1 : Nat) : Int)]) ∧
    (n = CANDLE_COUNT →
      ∀ cs c,
        (transport (mkReq pair granularity price from_date ((CANDLE_COUNT : Nat) : Int))).ok
          = true →
        (transport (mkReq pair granularity price from_date
            ((CANDLE_COUNT : Nat) : Int))).candles = some cs →
        cs.getLast? = some c →
        c.time.toSeconds < to_date.toSeconds →
        2 ≤ (collect_large_candle_data instruments transport pair granularity
            (.parseable from_date) (.parseable to_date) price).snd.length) := by
  constructor
  · intro hle
    rw [collect_valid_eq instruments transport pair granularity price from_date to_date
      hpair hg hprice, hcb]
    dsimp only
    rw [if_pos hle]
    rw [get_candles_eq instruments transport pair granularity price
      ((n + 1 : Nat) : Int) from_date hpair hg hprice
      (by exact_mod_cast Nat.le_add_left 1 n) (by exact_mod_cast hle)]
    rcases hw : windowResult (transport (mkReq pair granularity price from_date
        ((n + 1 : Nat) : Int))) with _ | cs <;> rfl
  · intro hn cs c hok hcs hlast hlt
    subst hn
    rw [collect_valid_eq instruments transport pair granularity price from_date to_date
      hpair hg hprice, hcb]
    dsimp only
    rw [if_neg (by omega)]
    rw [loopGo_succ_eq]
    rw [if_neg (by omega)]
    rw [show min (CANDLE_COUNT + 1) CANDLE_COUNT = CANDLE_COUNT from
      min_eq_right (Nat.le_succ _)]
    rw [get_candles_eq instruments transport pair granularity price
      ((CANDLE_COUNT : Nat) : Int) from_date hpair hg hprice
      (by norm_num [CANDLE_COUNT]) (le_refl _)]
    have hw : windowResult (transport (mkReq pair granularity price from_date
        ((CANDLE_COUNT : Nat) : Int))) = some cs := by
      unfold windowResult
      rw [hok, hcs]
      simp
    rw [hw]
    dsimp only
    rw [List.nil_append, hlast]
    dsimp only
    rw [if_neg (not_le.mpr hlt)]
    rw [show CANDLE_COUNT + 1 - CANDLE_COUNT = 1 from by omega]
    obtain ⟨t, ht⟩ := loopGo_issues_request instruments transport pair granularity price
      to_date hpair hg hprice CANDLE_COUNT 1 c.time cs
      ([] ++ [mkReq pair granularity price from_date ((CANDLE_COUNT : Nat) : Int)])
      (by omega)
    rw [ht]
    simp

/-- Witness for C1: one day at H1 needs 25 candles and issues exactly one
fetch with count 25; a range of exactly 4001 H1 candles issues at least
two fetches against a transport echoing one candle at the requested
anchor. -/
theorem collect_fetch_counts_witness :
    (collect_large_candle_data ["EUR_USD"] (fun p => Resp.mk true (some [Candle.mk p.fromP]))
        "EUR_USD" "H1" (.parseable (DateTime.mk 2020 1 1 0 0 0))
        (.parseable (DateTime.mk 2020 1 2 0 0 0)) "MBA").snd =
      [mkReq "EUR_USD" "H1" "MBA" (DateTime.mk 2020 1 1 0 0 0) ((25 : Nat) : Int)] ∧
    2 ≤ (collect_large_candle_data ["EUR_USD"]
        (fun p => Resp.mk true (some [Candle.mk p.fromP])) "EUR_USD" "H1"
        (.parseable (DateTime.mk 2020 1 1 0 0 0))
        (.parseable (DateTime.mk 2020 6 15 16 0 0)) "MBA").snd.length := by
  constructor
  · exact (collect_fetch_counts ["EUR_USD"] (fun p => Resp.mk true (some [Candle.mk p.fromP]))
      "EUR_USD" "H1" "MBA" (DateTime.mk 2020 1 1 0 0 0) (DateTime.mk 2020 1 2 0 0 0) 24
      (by decide) (by decide) (by decide) (by rfl)).1 (by norm_num [CANDLE_COUNT])
  · exact (collect_fetch_counts ["EUR_USD"] (fun p => Resp.mk true (some [Candle.mk p.fromP]))
      "EUR_USD" "H1" "MBA" (DateTime.mk 2020 1 1 0 0 0) (DateTime.mk 2020 6 15 16 0 0)
      CANDLE_COUNT (by decide) (by decide) (by decide) (by rfl)).2 rfl
      [Candle.mk (DateTime.mk 2020 1 1 0 0 0)] (Candle.mk (DateTime.mk 2020 1 1 0 0 0))
      (by rfl) (by rfl) (by rfl) (by decide)

/-- Chronological order on candles: non-decreasing timestamps. -/
def timeLE (a b : Candle) : Prop := a.time.toSeconds ≤ b.time.toSeconds

/-- Loop invariant for C5: if every response is an ascending candle list
starting at or after the requested anchor, an accumulator that is ordered
and whose last candle is at or before the cursor stays ordered through the
rest of the loop. -/
theorem loopGo_chain (instruments : List String) (transport : ReqParams → Resp)
    (pair granularity price : String) (to_date : DateTime)
    (hTr : ∀ p : ReqParams, (transport p).ok = true ∧
      ∃ cs, (transport p).candles = some cs ∧ List.Chain' timeLE cs ∧
        ∀ c, cs.head? = some c → p.fromP.toSeconds ≤ c.time.toSeconds) :
    ∀ fuel count from_date acc trace series trOut,
      List.Chain' timeLE acc →
      (∀ l, acc.getLast? = some l → l.time.toSeconds ≤ from_date.toSeconds) →
      loopGo instruments transport pair granularity price to_date
        fuel count from_date acc trace = (.ok (some series), trOut) →
      List.Chain' timeLE series := by
  intro fuel
  induction fuel with
  | zero =>
    intro count from_date acc trace series trOut hacc hlast hrun
    rw [loopGo_zero_eq] at hrun
    exact absurd (congrArg Prod.fst hrun) (by simp)
  | succ f ih =>
    intro count from_date acc trace series trOut hacc hlast hrun
    rw [loopGo_succ_eq] at hrun
    by_cases h0 : count = 0
    · rw [if_pos h0] at hrun
      have hs : acc = series := by
        have := congrArg Prod.fst hrun
        simpa using this
      rwa [← hs]
    · rw [if_neg h0] at hrun
      rcases hgc : get_candles instruments transport pair granularity price
          ((min count CANDLE_COUNT : Nat) : Int) from_date with ⟨r, tr⟩
      rw [hgc] at hrun
      rcases get_candles_cases instruments transport pair granularity price
          ((min count CANDLE_COUNT : Nat) : Int) from_date r tr hgc with
        hr | ⟨cs, p, hr, htr, hfrom, hok, hcs⟩
      · subst hr
        dsimp only at hrun
        exact absurd (congrArg Prod.fst hrun) (by simp)
      · subst hr
        dsimp only at hrun
        obtain ⟨hok2, cs2, hcs2, hchain2, hanchor2⟩ := hTr p
        rw [hcs] at hcs2
        injection hcs2 with hcseq
        have hchain : List.Chain' timeLE cs := by
          rw [hcseq]
          exact hchain2
        have hanchor : ∀ c, cs.head? = some c →
            from_date.toSeconds ≤ c.time.toSeconds := by
          intro c hc
          have := hanchor2 c (by rw [← hcseq]; exact hc)
          rwa [hfrom] at this
        have hacccs : List.Chain' timeLE (acc ++ cs) := by
          rw [List.chain'_append]
          refine ⟨hacc, hchain, ?_⟩
          intro x hx y hy
          have h1 := hlast x (Option.mem_def.mp hx)
          have h2 := hanchor y (Option.mem_def.mp hy)
          exact le_trans h1 h2
        rcases hl : (acc ++ cs).getLast? with _ | last
        · rw [hl] at hrun
          dsimp only at hrun
          exact absurd (congrArg Prod.fst hrun) (by simp)
        · rw [hl] at hrun
          dsimp only at hrun
          by_cases hb : to_date.toSeconds ≤ last.time.toSeconds
          · rw [if_pos hb] at hrun
            have hs : acc ++ cs = series := by
              have := congrArg Prod.fst hrun
              simpa using this
            rwa [← hs]
          · rw [if_neg hb] at hrun
            refine ih (count - min count CANDLE_COUNT) last.time (acc ++ cs)
              (trace ++ tr) series trOut hacccs ?_ hrun
            intro l hl2
            rw [hl] at hl2
            injection hl2 with h3
            exact le_of_eq (by rw [h3])

/-- C5: against any transport whose every response is a success carrying an
ascending candle list that starts at or after the requested anchor, any
full series the collector returns has non-decreasing timestamps
end-to-end, across all window boundaries. -/
theorem collect_series_nondecreasing (instruments : List String)
    (transport : ReqParams → Resp) (pair granularity : String)
    (date_from date_to : DInput) (price : String)
    (series : List Candle) (trace : List ReqParams)
    (hTr : ∀ p : ReqParams, (transport p).ok = true ∧
      ∃ cs, (transport p).candles = some cs ∧ List.Chain' timeLE cs ∧
        ∀ c, cs.head? = some c → p.fromP.toSeconds ≤ c.time.toSeconds)
    (hrun : collect_large_candle_data instruments transport pair granularity
        date_from date_to price = (.ok (some series), trace)) :
    List.Chain' timeLE series := by
  unfold collect_large_candle_data at hrun
  by_cases hpair : pair ∈ instruments
  swap
  · rw [if_neg hpair] at hrun
    exact absurd (congrArg Prod.fst hrun) (by simp)
  rw [if_pos hpair] at hrun
  by_cases hg : granularity ∈ granularity_list
  swap
  · rw [if_neg hg] at hrun
    exact absurd (congrArg Prod.fst hrun) (by simp)
  rw [if_pos hg] at hrun
  rcases hpd : tryParseTwoDates date_from date_to with e | ⟨from_date, to_date⟩
  · rw [hpd] at hrun
    rcases tryParseTwoDates_error date_from date_to e hpd with rfl | ⟨msg, rfl⟩ <;>
      exact absurd (congrArg Prod.fst hrun) (by simp)
  · rw [hpd] at hrun
    dsimp only at hrun
    by_cases hprice : price ∈ price_list
    swap
    · rw [if_neg hprice] at hrun
      exact absurd (congrArg Prod.fst hrun) (by simp)
    rw [if_pos hprice] at hrun
    rcases hcb : calculate_candles_between (.fullISO from_date) (.fullISO to_date)
        granularity with e | n
    · rw [hcb] at hrun
      obtain ⟨msg, rfl⟩ := cb_error_is_valueError _ _ _ _ hcb
      dsimp only at hrun
      exact absurd (congrArg Prod.fst hrun) (by simp)
    · rw [hcb] at hrun
      dsimp only at hrun
      by_cases hle : n + 1 ≤ CANDLE_COUNT
      · rw [if_pos hle] at hrun
        rcases hgc : get_candles instruments transport pair granularity price
            ((n + 1 : Nat) : Int) from_date with ⟨r, tr⟩
        rw [hgc] at hrun
        rcases get_candles_cases instruments transport pair granularity price
            ((n + 1 : Nat) : Int) from_date r tr hgc with
          hr | ⟨cs, p, hr, htr, hfrom, hok, hcs⟩
        · subst hr
          dsimp only at hrun
          exact absurd (congrArg Prod.fst hrun) (by simp)
        · subst hr
          dsimp only at hrun
          have hs : cs = series := by
            have := congrArg Prod.fst hrun
            simpa using this
          obtain ⟨hok2, cs2, hcs2, hchain2, hanchor2⟩ := hTr p
          rw [hcs] at hcs2
          injection hcs2 with hcseq
          rw [← hs, hcseq]
          exact hchain2
      · rw [if_neg hle] at hrun
        exact loopGo_chain instruments transport pair granularity price to_date hTr
          (n + 1 + 1) (n + 1) from_date [] [] series trace List.chain'_nil
          (fun l hl => by simp at hl) hrun

/-- Witness for C5: a transport answering every request with one candle at
the requested anchor yields a one-candle ordered series for a one-day H1
run. -/
theorem collect_series_nondecreasing_witness :
    collect_large_candle_data ["EUR_USD"] (fun p => Resp.mk true (some [Candle.mk p.fromP]))
        "EUR_USD" "H1" (.parseable (DateTime.mk 2020 1 1 0 0 0))
        (.parseable (DateTime.mk 2020 1 2 0 0 0)) "MBA" =
      (.ok (some [Candle.mk (DateTime.mk 2020 1 1 0 0 0)]),
        [mkReq "EUR_USD" "H1" "MBA" (DateTime.mk 2020 1 1 0 0 0) ((25 : Nat) : Int)]) ∧
    List.Chain' timeLE [Candle.mk (DateTime.mk 2020 1 1 0 0 0)] := by
  refine ⟨rfl, ?_⟩
  exact collect_series_nondecreasing ["EUR_USD"]
    (fun p => Resp.mk true (some [Candle.mk p.fromP])) "EUR_USD" "H1"
    (.parseable (DateTime.mk 2020 1 1 0 0 0)) (.parseable (DateTime.mk 2020 1 2 0 0 0))
    "MBA" [Candle.mk (DateTime.mk 2020 1 1 0 0 0)]
    [mkReq "EUR_USD" "H1" "MBA" (DateTime.mk 2020 1 1 0 0 0) ((25 : Nat) : Int)]
    (fun p => ⟨rfl, [Candle.mk p.fromP], rfl, List.chain'_singleton _,
      fun c hc => by
        injection hc with h2
        rw [← h2]⟩)
    rfl

/-- C3 is refuted by the code: with every fetch failing (here a transport
whose responses are all non-success), the caught failure makes
`get_candles` return `None`, and `candles.extend(None)` then raises
`TypeError`, which propagates past `collect_large_candle_data` instead of
an empty series being returned. -/
theorem collect_all_windows_fail_typeError :
    collect_large_candle_data ["EUR_USD"] (fun _ => Resp.mk false none) "EUR_USD" "H1"
        (.parseable (DateTime.mk 2020 1 1 0 0 0)) (.parseable (DateTime.mk 2020 1 2 0 0 0))
        "MBA" =
      (.error .typeError,
        [mkReq "EUR_USD" "H1" "MBA" (DateTime.mk 2020 1 1 0 0 0) ((25 : Nat) : Int)]) := by
  rfl

end ForexSim
